import Mathlib

/-!
Shallow embedding of the appointment access-control core of the
hospital_agent backend (src/backend/app/api/endpoints/appointments.py,
src/backend/app/schemas/appointment.py, src/backend/app/models/*.py).

Conventions of the embedding:
- Timestamps (DateTime columns) are modelled as natural numbers.
- Float columns carry no arithmetic in this core; they are modelled as Int.
- The relational store is a list of Appointment records threaded through the
  operations; SQL offset/limit become List.drop/List.take on the stored order.
- HTTPException raises become NotFound/Forbidden values; operations that can
  mutate the store return the resulting store alongside the result, so that an
  aborted request leaves the original store.
- The relationship in models/doctor.py, Doctor.user with backref
  doctor_profile, has its foreign key on the doctor table, so Doctor.user is
  many-to-one and the backref placed on User is the one-to-many side: a
  list-valued mapped attribute that exists on every User instance.
  Consequently hasattr(current_user, doctor_profile) is True for every actor,
  and evaluating current_user.doctor_profile.id raises AttributeError (the
  list type has no id attribute) whether or not a doctor row is linked. An
  uncaught AttributeError surfaces from the endpoint as HTTP 500; it is
  modelled as the ServerError outcome. The endpoints therefore never
  successfully read the profile link: in read_appointment and
  update_appointment the raise happens while evaluating the second conjunct,
  before the is_superuser conjunct, and in read_appointments it happens while
  the filter expression of the doctor branch is being built, before the query
  runs. The User field doctor_profile below records which doctor row, if any,
  references the user; it documents the database link the code intended to
  test, and the faithful endpoint definitions never read it.
-/

namespace HospitalAgent

/-- Status enumeration of schemas/appointment.py and models/appointment.py. -/
inductive AppointmentStatus where
  | scheduled
  | confirmed
  | in_progress
  | completed
  | cancelled
  | no_show
deriving DecidableEq, Repr

/-- Type enumeration of schemas/appointment.py and models/appointment.py. -/
inductive AppointmentType where
  | consultation
  | follow_up
  | emergency
  | teleconsultation
  | is_procedure
deriving DecidableEq, Repr

/-- Outcomes of the endpoints: NotFound and Forbidden are the raised
HTTPExceptions (404 and 403); ServerError is the uncaught AttributeError from
evaluating the id attribute of the list-valued doctor_profile backref, which
surfaces as HTTP 500. -/
inductive ApiError where
  | NotFound
  | Forbidden
  | ServerError
deriving DecidableEq, Repr

/-- The authenticated actor (models/user.py): id, role string, superuser
flag. The doctor_profile field records the id of the doctor row whose user_id
references this user, if one exists; at runtime the backref attribute of that
name is a list on every User instance, so the endpoint code can never read a
profile id from it (see the header note), and the faithful endpoint
definitions below do not consult this field. -/
structure User where
  id : Nat
  role : String := "patient"
  is_superuser : Bool := false
  doctor_profile : Option Nat := none
deriving DecidableEq, Repr

/-- A stored appointment row (models/appointment.py), with the fields the
response schema AppointmentInDBBase exposes. -/
structure Appointment where
  id : Nat
  patient_id : Nat
  doctor_id : Nat
  appointment_type : AppointmentType := .consultation
  status : AppointmentStatus := .scheduled
  scheduled_date : Nat
  duration_minutes : Nat := 30
  actual_start_time : Option Nat := none
  actual_end_time : Option Nat := none
  is_virtual : Bool := false
  meeting_link : Option String := none
  location : Option String := none
  reason_for_visit : Option String := none
  symptoms : Option String := none
  notes : Option String := none
  consultation_fee : Int := 0
  payment_status : String := "pending"
  follow_up_required : Bool := false
  follow_up_date : Option Nat := none
  ai_risk_score : Option Int := none
  ai_recommendations : Option String := none
  created_at : Nat := 0
  updated_at : Nat := 0
deriving DecidableEq, Repr

/-- The validated create payload (schemas/appointment.py, AppointmentCreate =
AppointmentBase). It has no patient_id field. -/
structure AppointmentCreate where
  doctor_id : Nat
  appointment_type : AppointmentType := .consultation
  scheduled_date : Nat
  duration_minutes : Nat := 30
  is_virtual : Bool := false
  reason_for_visit : Option String := none
  symptoms : Option String := none
  notes : Option String := none
deriving DecidableEq, Repr

/-- A raw create request body: the keys of AppointmentCreate plus a possible
extra patient_id key. Pydantic model validation with the default config
ignores keys that are not fields of the model, so body_patient_id is dropped
when the body is parsed into AppointmentCreate. -/
structure CreateRequestBody where
  doctor_id : Nat
  appointment_type : AppointmentType := .consultation
  scheduled_date : Nat
  duration_minutes : Nat := 30
  is_virtual : Bool := false
  reason_for_visit : Option String := none
  symptoms : Option String := none
  notes : Option String := none
  body_patient_id : Option Nat := none
deriving DecidableEq, Repr

/-- Pydantic validation of a raw body into AppointmentCreate: the extra
patient_id key is ignored (default pydantic behavior for unknown keys). -/
def validateCreateBody (b : CreateRequestBody) : AppointmentCreate :=
  { doctor_id := b.doctor_id
    appointment_type := b.appointment_type
    scheduled_date := b.scheduled_date
    duration_minutes := b.duration_minutes
    is_virtual := b.is_virtual
    reason_for_visit := b.reason_for_visit
    symptoms := b.symptoms
    notes := b.notes }

/-- The partial update payload (schemas/appointment.py, AppointmentUpdate).
A field that is none was not present in the request; model_dump with
exclude_unset drops it, so it is left untouched. Text fields are nullable in
the store, so their set value is itself an Option. -/
structure AppointmentUpdate where
  status : Option AppointmentStatus := none
  scheduled_date : Option Nat := none
  duration_minutes : Option Nat := none
  is_virtual : Option Bool := none
  reason_for_visit : Option (Option String) := none
  symptoms : Option (Option String) := none
  notes : Option (Option String) := none
  meeting_link : Option (Option String) := none
  location : Option (Option String) := none
deriving DecidableEq, Repr

/-- The setattr loop of update_appointment: for each field present in
model_dump(exclude_unset=True), write it onto the row; the ORM onupdate hook
then refreshes updated_at at commit. -/
def applyUpdate (appointment : Appointment) (p : AppointmentUpdate) (now : Nat) :
    Appointment :=
  { appointment with
    status := p.status.getD appointment.status
    scheduled_date := p.scheduled_date.getD appointment.scheduled_date
    duration_minutes := p.duration_minutes.getD appointment.duration_minutes
    is_virtual := p.is_virtual.getD appointment.is_virtual
    reason_for_visit := p.reason_for_visit.getD appointment.reason_for_visit
    symptoms := p.symptoms.getD appointment.symptoms
    notes := p.notes.getD appointment.notes
    meeting_link := p.meeting_link.getD appointment.meeting_link
    location := p.location.getD appointment.location
    updated_at := now }

/-- GET /appointments/ (read_appointments). Doctor branch: the ternary guard
hasattr(current_user, doctor_profile) is True on every User (the backref is a
mapped attribute), so the else-False arm is dead and the expression
current_user.doctor_profile.id is evaluated on the list-valued backref while
the filter is being built: AttributeError, HTTP 500, for every doctor-role
actor. Every other role gets the rows whose patient_id equals their own id,
then offset skip, limit. -/
def read_appointments (db : List Appointment) (skip limit : Nat)
    (current_user : User) : Except ApiError (List Appointment) :=
  if current_user.role == "doctor" then
    .error .ServerError
  else
    .ok (((db.filter (fun a => a.patient_id == current_user.id)).drop skip).take limit)

/-- POST /appointments/ (create_appointment): builds the row from the
validated payload fields with patient_id := current_user.id, lets the column
defaults fill the rest, assigns a fresh id and the creation timestamps, and
inserts it. No profile expression is evaluated on this path. Returns the
created row and the new store. -/
def create_appointment (db : List Appointment) (body : CreateRequestBody)
    (current_user : User) (new_id now : Nat) : Appointment × List Appointment :=
  let appointment_in := validateCreateBody body
  let appointment : Appointment :=
    { id := new_id
      patient_id := current_user.id
      doctor_id := appointment_in.doctor_id
      appointment_type := appointment_in.appointment_type
      status := .scheduled
      scheduled_date := appointment_in.scheduled_date
      duration_minutes := appointment_in.duration_minutes
      is_virtual := appointment_in.is_virtual
      reason_for_visit := appointment_in.reason_for_visit
      symptoms := appointment_in.symptoms
      notes := appointment_in.notes
      consultation_fee := 0
      payment_status := "pending"
      follow_up_required := false
      created_at := now
      updated_at := now }
  (appointment, db ++ [appointment])

/-- GET /appointments/id (read_appointment): 404 when no row has that id.
The permission condition is A and B and C with A the test patient_id != uid:
when A is false the actor is the patient of the row and the row is returned;
when A is true Python evaluates B, whose hasattr disjunct is False (the
backref attribute always exists), so current_user.doctor_profile.id is
evaluated on the list-valued backref and raises AttributeError (HTTP 500)
before C, the is_superuser test, is reached. Forbidden is unreachable. -/
def read_appointment (db : List Appointment) (appointment_id : Nat)
    (current_user : User) : Except ApiError Appointment :=
  match db.find? (fun a => a.id == appointment_id) with
  | none => .error .NotFound
  | some appointment =>
    if appointment.patient_id != current_user.id then
      .error .ServerError
    else
      .ok appointment

/-- PUT /appointments/id (update_appointment): 404 when no row has that id,
then the same permission condition as read_appointment with the same collapse:
any actor other than the patient of the row crashes with AttributeError
(HTTP 500) inside the condition, before the patch loop; the patient of the
row gets the sparse patch applied and the row rewritten in the store. The
resulting store accompanies the result; an aborted request leaves the store
as it was. -/
def update_appointment (db : List Appointment) (appointment_id : Nat)
    (appointment_in : AppointmentUpdate) (current_user : User) (now : Nat) :
    Except ApiError Appointment × List Appointment :=
  match db.find? (fun a => a.id == appointment_id) with
  | none => (.error .NotFound, db)
  | some appointment =>
    if appointment.patient_id != current_user.id then
      (.error .ServerError, db)
    else
      let updated := applyUpdate appointment appointment_in now
      (.ok updated, db.map (fun a => if a.id == appointment_id then updated else a))

/-- DELETE /appointments/id (delete_appointment): 404 when no row has that
id, 403 unless the actor is the patient of the row or a superuser. This
check touches neither hasattr nor the profile attribute, so it behaves as
written; on success the row is removed and the confirmation message
returned. -/
def delete_appointment (db : List Appointment) (appointment_id : Nat)
    (current_user : User) : Except ApiError String × List Appointment :=
  match db.find? (fun a => a.id == appointment_id) with
  | none => (.error .NotFound, db)
  | some appointment =>
    if appointment.patient_id != current_user.id && !current_user.is_superuser then
      (.error .Forbidden, db)
    else
      (.ok "Appointment deleted successfully",
       db.filter (fun a => a.id != appointment_id))

/-! Concrete sample data used by the witness and evaluation theorems. -/

/-- A patient actor, id 1. -/
def patientOne : User := { id := 1 }

/-- A second, unrelated patient actor, id 2. -/
def patientTwo : User := { id := 2 }

/-- A doctor actor, id 5, linked to doctor profile 7. -/
def doctorUser : User := { id := 5, role := "doctor", doctor_profile := some 7 }

/-- A doctor actor, id 6, with no linked doctor profile. -/
def doctorNoProfile : User := { id := 6, role := "doctor" }

/-- A superuser actor, id 9, not related to any appointment. -/
def adminUser : User := { id := 9, role := "admin", is_superuser := true }

/-- A stored appointment of patient 1 with doctor profile 7. -/
def apptA : Appointment :=
  { id := 10, patient_id := 1, doctor_id := 7, scheduled_date := 100,
    created_at := 50, updated_at := 50 }

/-- A stored appointment of patient 2 with doctor profile 8. -/
def apptB : Appointment :=
  { id := 11, patient_id := 2, doctor_id := 8, scheduled_date := 200,
    created_at := 60, updated_at := 60 }

/-- A two-row sample store. -/
def sampleDb : List Appointment := [apptA, apptB]

deriving instance DecidableEq for Except

/-- C1: the appointment returned by the create operation has patient_id equal
to the id of the actor issuing the request, regardless of any patient_id
value supplied in the request body (the create payload cannot set
patient_id). -/
theorem create_patient_id_is_actor (db : List Appointment) (body : CreateRequestBody)
    (u : User) (new_id now : Nat) :
    (create_appointment db body u new_id now).1.patient_id = u.id := rfl

/-- C2, evaluation at the failing inputs: the single read by an unrelated
patient, by the doctor whose linked profile matches the row, and by a
non-owner superuser all end in the AttributeError outcome (HTTP 500) — never
Forbidden, and the matching doctor and superuser never receive the row; only
the owning patient reads successfully. -/
theorem read_nonowner_crashes :
    read_appointment sampleDb apptB.id patientOne = .error .ServerError ∧
    read_appointment sampleDb apptA.id doctorUser = .error .ServerError ∧
    read_appointment sampleDb apptA.id adminUser = .error .ServerError ∧
    read_appointment sampleDb apptA.id patientOne = .ok apptA ∧
    doctorUser.doctor_profile = some apptA.doctor_id ∧
    adminUser.is_superuser = true := by decide

/-- C3: deleting an appointment as the owning patient succeeds and a
subsequent get of the same id returns NotFound for any actor; a delete by the
matching doctor who is not the patient and not a superuser fails with
Forbidden. -/
theorem delete_owner_and_doctor (db : List Appointment) (a : Appointment)
    (u w : User) (hfind : db.find? (fun x => x.id == a.id) = some a) :
    (u.id = a.patient_id →
      (delete_appointment db a.id u).1 = .ok "Appointment deleted successfully" ∧
      read_appointment (delete_appointment db a.id u).2 a.id w = .error .NotFound)
    ∧ (u.doctor_profile = some a.doctor_id → u.id ≠ a.patient_id →
        u.is_superuser = false →
      (delete_appointment db a.id u).1 = .error .Forbidden) := by
  constructor
  · intro hown
    have hcond : (a.patient_id != u.id && !u.is_superuser) = false := by simp [hown]
    constructor
    · simp [delete_appointment, hfind, hcond]
    · have hdb2 : (delete_appointment db a.id u).2 =
          db.filter (fun x => x.id != a.id) := by
        simp [delete_appointment, hfind, hcond]
      have hnone : (db.filter (fun x => x.id != a.id)).find?
          (fun x => x.id == a.id) = none := by
        apply List.find?_eq_none.mpr
        intro x hx
        have hne := (List.mem_filter.mp hx).2
        simp only [bne_iff_ne, ne_eq] at hne
        simp [hne]
      simp [read_appointment, hdb2, hnone]
  · intro _hdoc hne hsup
    have hcond : (a.patient_id != u.id && !u.is_superuser) = true := by
      have h1 : a.patient_id ≠ u.id := fun h => hne h.symm
      simp [h1, hsup]
    simp [delete_appointment, hfind, hcond]

/-- C3 witness: on the sample store, patient 1 deletes appointment 10 and a
following get returns NotFound, while the matching doctor is refused the
delete. -/
theorem delete_owner_and_doctor_wit :
    (delete_appointment sampleDb apptA.id patientOne).1 =
      .ok "Appointment deleted successfully" ∧
    read_appointment (delete_appointment sampleDb apptA.id patientOne).2
      apptA.id patientOne = .error .NotFound ∧
    (delete_appointment sampleDb apptA.id doctorUser).1 = .error .Forbidden :=
  ⟨((delete_owner_and_doctor sampleDb apptA patientOne patientOne (by decide)).1 rfl).1,
   ((delete_owner_and_doctor sampleDb apptA patientOne patientOne (by decide)).1 rfl).2,
   (delete_owner_and_doctor sampleDb apptA doctorUser patientOne (by decide)).2
     rfl (by decide) rfl⟩

/-- C4, evaluation at the failing input: the list operation for a doctor
actor with no linked doctor profile ends in the AttributeError outcome
(HTTP 500) — the constant-false filter arm is dead code and the empty list is
never returned. -/
theorem doctor_list_crashes :
    doctorNoProfile.role = "doctor" ∧ doctorNoProfile.doctor_profile = none ∧
    read_appointments sampleDb 0 100 doctorNoProfile = .error .ServerError := by
  decide

/-- C5, evaluation: a status-only update by the owning patient returns the
row with exactly status and updated_at changed, but the same update by the
matching doctor — an actor the policy permits — ends in the AttributeError
outcome (HTTP 500) with no resulting appointment at all. -/
theorem status_only_update_outcomes :
    (update_appointment sampleDb apptA.id { status := some .completed }
        patientOne 77).1 =
      .ok { apptA with status := .completed, updated_at := 77 } ∧
    (update_appointment sampleDb apptA.id { status := some .completed }
        doctorUser 77).1 = .error .ServerError ∧
    doctorUser.doctor_profile = some apptA.doctor_id := by decide

/-- C6, evaluation at the failing input: the list operation for the doctor
whose linked profile matches a stored row ends in the AttributeError outcome
(HTTP 500) instead of the doctor_id-scoped rows, while a patient actor does
receive exactly the rows whose patient_id is their own id. -/
theorem doctor_list_never_scoped :
    read_appointments sampleDb 0 100 doctorUser = .error .ServerError ∧
    doctorUser.doctor_profile = some apptA.doctor_id ∧
    read_appointments sampleDb 0 100 patientTwo = .ok [apptB] := by decide

/-- C7, evaluation at the failing inputs: a non-owner superuser crashes with
the AttributeError outcome (HTTP 500) on read and update of an existing
appointment — the is_superuser conjunct is never reached — and only delete
honors the superuser override. -/
theorem superuser_nonowner_crashes :
    adminUser.is_superuser = true ∧
    read_appointment sampleDb apptA.id adminUser = .error .ServerError ∧
    (update_appointment sampleDb apptA.id { status := some .completed }
        adminUser 77).1 = .error .ServerError ∧
    (delete_appointment sampleDb apptA.id adminUser).1 =
      .ok "Appointment deleted successfully" := by decide

/-- C8: whatever the payload, a successful update returns a row whose
patient_id and doctor_id are those of the stored appointment: the update
endpoint cannot change either reference. -/
theorem update_preserves_ids (db : List Appointment) (a : Appointment)
    (p : AppointmentUpdate) (u : User) (now : Nat) (r : Appointment)
    (db2 : List Appointment)
    (hfind : db.find? (fun x => x.id == a.id) = some a)
    (hok : update_appointment db a.id p u now = (.ok r, db2)) :
    r.patient_id = a.patient_id ∧ r.doctor_id = a.doctor_id := by
  simp only [update_appointment, hfind] at hok
  by_cases hc : (a.patient_id != u.id) = true
  · rw [if_pos hc] at hok
    simp at hok
  · rw [if_neg hc] at hok
    have hr : applyUpdate a p now = r := by
      have := congrArg Prod.fst hok
      simpa using this
    subst hr
    exact ⟨rfl, rfl⟩

/-- C8 witness: a payload setting status, notes and scheduled_date leaves
patient_id and doctor_id of appointment 10 unchanged. -/
theorem update_preserves_ids_wit :
    ({ apptA with
        status := .cancelled
        notes := some "x"
        scheduled_date := 9
        updated_at := 77 } : Appointment).patient_id = apptA.patient_id ∧
    ({ apptA with
        status := .cancelled
        notes := some "x"
        scheduled_date := 9
        updated_at := 77 } : Appointment).doctor_id = apptA.doctor_id :=
  update_preserves_ids sampleDb apptA
    { status := some .cancelled, notes := some (some "x"), scheduled_date := some 9 }
    patientOne 77
    { apptA with
      status := .cancelled
      notes := some "x"
      scheduled_date := 9
      updated_at := 77 }
    [{ apptA with
       status := .cancelled
       notes := some "x"
       scheduled_date := 9
       updated_at := 77 }, apptB]
    (by decide) (by decide)

/-- C9 counterexample: the doctor whose linked profile matches the row — an
actor the claimed predicate (patient-owner, matching doctor, or superuser)
permits — is granted neither read nor update of that row, and receives the
AttributeError outcome rather than Forbidden from both endpoints: the claimed
trio is not the access predicate either operation computes. -/
theorem read_update_policy_cex :
    doctorUser.doctor_profile = some apptA.doctor_id ∧
    read_appointment sampleDb apptA.id doctorUser = .error .ServerError ∧
    (update_appointment sampleDb apptA.id { status := some .completed }
        doctorUser 77).1 = .error .ServerError := by decide

/-- C9 as amended: for every actor, target id, payload and time, the update
and single-read operations produce matching outcomes — each error value
occurs for update exactly when it occurs for read, and update returns a row
exactly when read does. The shared access check admits only the owning
patient and ends in the AttributeError outcome for every other actor on an
existing row; it does not implement the patient-owner, matching-doctor or
superuser trio. -/
theorem read_update_same_outcomes (db : List Appointment) (appointment_id : Nat)
    (p : AppointmentUpdate) (u : User) (now : Nat) :
    (∀ e : ApiError, ((update_appointment db appointment_id p u now).1 = .error e ↔
      read_appointment db appointment_id u = .error e))
    ∧ ((∃ r, (update_appointment db appointment_id p u now).1 = .ok r) ↔
      (∃ a, read_appointment db appointment_id u = .ok a)) := by
  simp only [update_appointment, read_appointment]
  cases hf : db.find? (fun a => a.id == appointment_id) with
  | none => simp
  | some a =>
    cases hc : (a.patient_id != u.id) with
    | true => simp [hc]
    | false => simp [hc]

/-- C10: an update or delete that fails leaves the appointment store exactly
as it was. -/
theorem failed_write_keeps_store (db : List Appointment) (appointment_id : Nat)
    (p : AppointmentUpdate) (u : User) (now : Nat) (e : ApiError) :
    ((update_appointment db appointment_id p u now).1 = .error e →
      (update_appointment db appointment_id p u now).2 = db)
    ∧ ((delete_appointment db appointment_id u).1 = .error e →
      (delete_appointment db appointment_id u).2 = db) := by
  constructor
  · simp only [update_appointment]
    split
    next => simp
    next => split <;> simp
  · simp only [delete_appointment]
    split
    next => simp
    next => split <;> simp

/-- C10 witness: an update on an empty store fails with NotFound and keeps
the store empty; a delete denied to an unrelated patient keeps the sample
store intact. -/
theorem failed_write_keeps_store_wit :
    (update_appointment [] 0 {} patientOne 0).2 = [] ∧
    (delete_appointment sampleDb apptA.id patientTwo).2 = sampleDb :=
  ⟨(failed_write_keeps_store [] 0 {} patientOne 0 .NotFound).1 (by decide),
   (failed_write_keeps_store sampleDb apptA.id {} patientTwo 0 .Forbidden).2 (by decide)⟩

end HospitalAgent
